import Mathlib

/-!
Shallow embedding of the complaint-triage decision engine from
`backend/ai_analyzer.py`, together with theorems checking the
natural-language specification against it.

Conventions used throughout:
* Python strings are Lean `String`s; `keyword in text` is substring
  containment on the underlying character lists.
* Confidence scores are exact rationals (`ℚ`).  `round(x, 3)` is modelled
  by `round3`; Python rounds half to even while `round3` rounds half up,
  but every value this code rounds is an exact multiple of `1/1000`, where
  the two agree.
* `datetime.utcnow()` is modelled by an explicit `now : Nat` parameter
  (seconds since an arbitrary epoch); `timedelta(hours = h)` adds
  `h * 3600` seconds.
* The remote HTTP service is an oracle: `call_huggingface_api` consumes a
  function `Nat → HttpOutcome α` giving the outcome of the request made on
  each attempt, and the classification / sentiment wrappers consume the
  resulting `Except GatewayError (Option _)` value directly, since their
  behaviour depends only on what the gateway call returned or raised.
-/

set_option autoImplicit false

namespace ComplaintAnalyzer

/-! ## Python string primitives -/

/-- Python substring containment `needle in haystack`, on character lists. -/
def containsSub (needle : List Char) : List Char → Bool
  | [] => needle.isEmpty
  | c :: rest => needle.isPrefixOf (c :: rest) || containsSub needle rest

/-- Python `str.lower()` (ASCII case folding, as in all texts used here). -/
def lowerStr (s : String) : String := ⟨s.data.map Char.toLower⟩

/-- Python `needle in haystack` for strings. -/
def strIn (needle haystack : String) : Bool := containsSub needle.data haystack.data

/-- Python `str.strip()`: remove leading and trailing whitespace. -/
def pyStrip (s : String) : String :=
  ⟨((s.data.dropWhile Char.isWhitespace).reverse.dropWhile Char.isWhitespace).reverse⟩

/-- Python `sum(1 for keyword in keywords if keyword in text_lower)`. -/
def countKw (text_lower : String) (keywords : List String) : Nat :=
  (keywords.filter (fun k => strIn k text_lower)).length

/-- Python `round(x, 3)` on exact rationals. -/
def round3 (x : ℚ) : ℚ := (round (x * 1000) : ℤ) / 1000

/-! ## Module-level constants (`ai_analyzer.py`, lines 15-28) -/

def CATEGORIES : List String :=
  ["Billing Issues", "Delivery Issues", "Technical Support", "Product Quality",
   "Service Quality", "Refund Requests", "Account Issues"]

def URGENT_KEYWORDS : List String :=
  ["urgent", "asap", "immediately", "emergency", "critical",
   "refund", "fraud", "lawsuit", "legal", "lawyer", "sue"]

/-! ## Keyword tables of `classify_complaint_with_keywords`
(`ai_analyzer.py`, lines 64-99; dict literal order is preserved) -/

def billing_keywords : List String :=
  ["bill", "billing", "charge", "charged", "payment", "invoice", "paid",
   "overcharged", "double charge", "subscription", "fee", "cost", "price",
   "credit card", "debit", "transaction", "autopay", "refund"]

def delivery_keywords : List String :=
  ["deliver", "delivery", "shipping", "shipped", "ship", "late", "delay",
   "arrived", "tracking", "package", "order", "dispatch", "courier",
   "transit", "logistics", "warehouse", "not received", "lost package"]

def product_keywords : List String :=
  ["broken", "defect", "defective", "quality", "damaged", "faulty",
   "poor quality", "cheap", "deteriorated", "malfunction", "doesn\x27t work",
   "stopped working", "issue with product", "product problem", "warranty"]

def refund_keywords : List String :=
  ["refund", "return", "money back", "reimbursement", "give back",
   "want my money", "cancellation", "cancel", "exchange", "replacement"]

def account_keywords : List String :=
  ["account", "login", "password", "access", "locked", "suspended",
   "can\x27t log in", "username", "profile", "sign in", "authentication",
   "verify", "verification", "reset", "blocked"]

def service_keywords : List String :=
  ["support", "service", "representative", "agent", "staff", "employee",
   "rude", "unhelpful", "poor service", "bad service", "customer care",
   "help desk", "no response", "ignored", "waiting", "attitude"]

def technical_keywords : List String :=
  ["bug", "error", "crash", "technical", "app", "website", "system",
   "not working", "glitch", "freeze", "slow", "loading", "connection",
   "software", "update", "feature", "functionality", "interface", "dark mode"]

/-- The `category_keywords` dict, in insertion order. -/
def category_keywords : List (String × List String) :=
  [("Billing Issues", billing_keywords),
   ("Delivery Issues", delivery_keywords),
   ("Product Quality", product_keywords),
   ("Refund Requests", refund_keywords),
   ("Account Issues", account_keywords),
   ("Service Quality", service_keywords),
   ("Technical Support", technical_keywords)]

/-! ## Result records -/

structure CategoryResult where
  category : String
  confidence : ℚ
deriving DecidableEq

structure SentimentResult where
  sentiment : String
  confidence : ℚ
deriving DecidableEq

/-! ## `classify_complaint_with_keywords` (lines 60-112) -/

/-- Python `max(scores, key=scores.get)` over the dict built in insertion
order: the fold replaces the current best only on a strictly greater count,
so the earliest category among ties wins. -/
def maxBySnd (p : String × Nat) (ps : List (String × Nat)) : String × Nat :=
  ps.foldl (fun best q => if q.2 > best.2 then q else best) p

def classify_complaint_with_keywords (text : String) : CategoryResult :=
  let text_lower := lowerStr text
  let scores := (category_keywords.map
      (fun ck => (ck.1, countKw text_lower ck.2))).filter (fun p => decide (0 < p.2))
  match scores with
  | [] => ⟨"Service Quality", 0.70⟩
  | p :: ps =>
    let best := maxBySnd p ps
    ⟨best.1, round3 (min (0.85 + (best.2 : ℚ) * 0.02) 0.99)⟩

/-! ## `analyze_sentiment_with_keywords` (lines 140-172) -/

def negative_words : List String :=
  ["angry", "frustrated", "terrible", "awful", "horrible", "worst",
   "hate", "disappointed", "disgusted", "furious", "annoyed", "upset",
   "useless", "pathetic", "ridiculous", "unacceptable", "poor", "bad"]

def positive_words : List String :=
  ["thank", "thanks", "great", "excellent", "happy", "satisfied",
   "love", "appreciate", "wonderful", "amazing", "fantastic", "good",
   "pleased", "glad", "perfect", "awesome", "brilliant"]

def neutral_words : List String :=
  ["suggest", "suggestion", "would be nice", "could", "maybe", "perhaps",
   "consider", "feature request", "idea", "feedback"]

def analyze_sentiment_with_keywords (text : String) : SentimentResult :=
  let text_lower := lowerStr text
  let negative_count := countKw text_lower negative_words
  let positive_count := countKw text_lower positive_words
  let neutral_count := countKw text_lower neutral_words
  if neutral_count > 0 ∧ negative_count = 0 then ⟨"neutral", 0.85⟩
  else if negative_count > positive_count then ⟨"negative", 0.80⟩
  else if positive_count > negative_count then ⟨"positive", 0.80⟩
  else ⟨"neutral", 0.75⟩

/-! ## Remote oracle gateway `call_huggingface_api` (lines 31-57) -/

/-- The exceptions the gateway raises (`TimeoutError`, `ConnectionError`,
generic `Exception`), tagged with their user-facing message. -/
inductive GatewayError where
  | timeoutError (msg : String)
  | connectionError (msg : String)
  | genericError (msg : String)
deriving DecidableEq

/-- Outcome of the HTTP request made on one attempt: a 200 response with
parsed body, a 503, any other status, `requests.exceptions.Timeout`,
`requests.exceptions.ConnectionError`, or some other exception. -/
inductive HttpOutcome (α : Type) where
  | success (body : α)
  | status503
  | otherStatus
  | timeout
  | connError
  | otherExc (msg : String)

/-- What one invocation of the gateway did: the value returned or the error
raised, the number of HTTP requests performed, and the list of backoff
delays (`time.sleep(2 ** attempt)`) performed, in order. -/
structure GwTrace (α : Type) where
  result : Except GatewayError (Option α)
  requests : Nat
  sleeps : List Nat

/-- The `for attempt in range(max_retries)` loop, run from iteration
`attempt` with `remaining` iterations left (`remaining = max_retries -
attempt`).  The Python guard `attempt < max_retries - 1` in the timeout
branch is `remaining ≠ 1`, written here as `0 < remaining` on the tail; when
it fails the loop raises `TimeoutError`.  Falling out of the loop (all
attempts got a 503) returns `None`. -/
def callLoop {α : Type} (http : Nat → HttpOutcome α) : Nat → Nat → GwTrace α
  | 0, _ => ⟨.ok none, 0, []⟩
  | remaining + 1, attempt =>
    match http attempt with
    | .success body => ⟨.ok (some body), 1, []⟩
    | .status503 =>
      let t := callLoop http remaining (attempt + 1)
      ⟨t.result, t.requests + 1, 2 ^ attempt :: t.sleeps⟩
    | .otherStatus => ⟨.ok none, 1, []⟩
    | .timeout =>
      if remaining = 0 then
        ⟨.error (.timeoutError "⏰ AI service request timeout - please try again"), 1, []⟩
      else
        let t := callLoop http remaining (attempt + 1)
        ⟨t.result, t.requests + 1, 2 ^ attempt :: t.sleeps⟩
    | .connError =>
      ⟨.error (.connectionError "🔌 Connection lost - please check your internet"), 1, []⟩
    | .otherExc msg =>
      ⟨.error (.genericError ("❌ AI service temporarily unavailable: " ++ msg)), 1, []⟩

def call_huggingface_api {α : Type} (http : Nat → HttpOutcome α) (max_retries : Nat) :
    GwTrace α :=
  callLoop http max_retries 0

/-! ## `classify_complaint` (lines 115-137) -/

/-- Parsed JSON body of a zero-shot classification response:
`{"labels": [...], "scores": [...]}`, labels ranked by score. -/
structure ClsResponse where
  labels : List String
  scores : List ℚ
deriving DecidableEq

/-- The classification wrapper.  `gw` is what `call_huggingface_api`
returned (`.ok`) or raised (`.error`).  The `try` block indexes
`result["labels"][0]` and `result["scores"][0]`; on a missing key or an
empty list the resulting exception is caught by the blanket `except`, so
every branch other than an accepted high-confidence response degrades to
`classify_complaint_with_keywords`. -/
def classify_complaint (gw : Except GatewayError (Option ClsResponse)) (text : String) :
    CategoryResult :=
  match gw with
  | .error _ => classify_complaint_with_keywords text
  | .ok none => classify_complaint_with_keywords text
  | .ok (some result) =>
    match result.labels, result.scores with
    | label :: _, score :: _ =>
      if score > 0.5 then ⟨label, round3 score⟩
      else classify_complaint_with_keywords text
    | _, _ => classify_complaint_with_keywords text

/-! ## `analyze_sentiment` (lines 175-201) -/

/-- One prediction `{"label": ..., "score": ...}` of the sentiment model. -/
structure SentPred where
  label : String
  score : ℚ
deriving DecidableEq

/-- Python `max(predictions, key=lambda x: x['score'])` on `p :: ps`:
strictly-greater replacement, earliest maximum wins. -/
def maxByScore (p : SentPred) (ps : List SentPred) : SentPred :=
  ps.foldl (fun best q => if q.score > best.score then q else best) p

/-- `sentiment_map.get(label.lower(), "neutral")` where `sentiment_map` is
the identity on the three canonical labels. -/
def sentiment_map_get (label : String) : String :=
  let l := lowerStr label
  if l = "positive" then "positive"
  else if l = "negative" then "negative"
  else if l = "neutral" then "neutral"
  else "neutral"

/-- The sentiment wrapper.  The response body is a list of prediction
lists; `result[0]` is inspected only when the outer list is non-empty, and
`max` on an empty prediction list raises, which the blanket `except`
converts into the keyword fallback. -/
def analyze_sentiment (gw : Except GatewayError (Option (List (List SentPred))))
    (text : String) : SentimentResult :=
  match gw with
  | .error _ => analyze_sentiment_with_keywords text
  | .ok none => analyze_sentiment_with_keywords text
  | .ok (some result) =>
    match result with
    | [] => analyze_sentiment_with_keywords text
    | predictions :: _ =>
      match predictions with
      | [] => analyze_sentiment_with_keywords text
      | p :: ps =>
        let top := maxByScore p ps
        if top.score > 0.6 then ⟨sentiment_map_get top.label, round3 top.score⟩
        else analyze_sentiment_with_keywords text

/-! ## `calculate_priority` (lines 204-216) -/

/-- `has_urgent = any(keyword in text_lower for keyword in URGENT_KEYWORDS)`. -/
def has_urgent (text : String) : Bool :=
  let text_lower := lowerStr text
  URGENT_KEYWORDS.any (fun keyword => strIn keyword text_lower)

def high_priority_categories : List String :=
  ["Refund Requests", "Billing Issues", "Account Issues"]

def calculate_priority (sentiment text category : String) : String :=
  if sentiment = "negative" ∧ has_urgent text = true then "high"
  else if sentiment = "negative" ∨ has_urgent text = true ∨
      category ∈ high_priority_categories then "medium"
  else "low"

/-! ## `calculate_response_due_time` (lines 219-230)
`datetime.utcnow()` is the explicit `now` argument, in seconds. -/

def calculate_response_due_time (priority : String) (now : Nat) : Nat :=
  let hours : Nat :=
    if priority = "high" then 2
    else if priority = "medium" then 24
    else if priority = "low" then 48
    else 24
  now + hours * 3600

/-! ## `suggest_action` (lines 233-445) -/

/-- One entry of the `urgency_map` fallback table. -/
structure Urgency where
  timeframe : String
  method : String
  escalation : String
  compensation : String

/-- `urgency_map.get(priority, urgency_map["medium"])`. -/
def urgency_map (priority : String) : Urgency :=
  if priority = "high" then
    ⟨"2 hours", "Call", "Escalate to department manager",
     "Offer immediate compensation/solution"⟩
  else if priority = "medium" then
    ⟨"12 hours", "Email", "Assign to senior specialist",
     "Review compensation options"⟩
  else if priority = "low" then
    ⟨"48 hours", "Email", "Route to standard queue",
     "Acknowledge and thank customer"⟩
  else
    ⟨"12 hours", "Email", "Assign to senior specialist",
     "Review compensation options"⟩

/-- The exact-triple action table followed by the dynamic fallback. -/
def suggest_action (category sentiment priority customer_email : String) : String :=
  match category, sentiment, priority with
  | "Billing Issues", "negative", "high" =>
    "⚠️ URGENT ACTION REQUIRED:\n1. Call " ++ customer_email ++
    " within 2 hours\n2. Review billing records immediately\n3. Prepare refund/credit authorization\n4. Escalate to Billing Manager\n5. Document resolution for legal compliance"
  | "Billing Issues", "negative", "medium" =>
    "💳 PRIORITY ACTION:\n1. Email " ++ customer_email ++
    " within 6 hours\n2. Verify payment transaction details\n3. Assign to Senior Billing Specialist\n4. Provide itemized statement\n5. Offer payment plan if applicable"
  | "Billing Issues", "neutral", "low" =>
    "📋 STANDARD PROCEDURE:\n1. Email " ++ customer_email ++
    " within 48 hours\n2. Send billing clarification document\n3. Assign to Billing Support Team\n4. Schedule follow-up call if needed"
  | "Billing Issues", "positive", "low" =>
    "✅ ACKNOWLEDGMENT:\n1. Thank " ++ customer_email ++
    " for patience\n2. Confirm billing issue resolved\n3. Offer loyalty discount (10% next purchase)\n4. Update customer satisfaction record"
  | "Delivery Issues", "negative", "high" =>
    "🚚 IMMEDIATE ESCALATION:\n1. Contact " ++ customer_email ++
    " within 1 hour\n2. Track shipment with courier urgently\n3. Offer expedited replacement shipping\n4. Escalate to Logistics Manager\n5. Provide tracking updates every 4 hours\n6. Consider partial refund for inconvenience"
  | "Delivery Issues", "negative", "medium" =>
    "📦 PRIORITY TRACKING:\n1. Email " ++ customer_email ++
    " within 6 hours\n2. Request tracking update from courier\n3. Assign to Delivery Resolution Team\n4. Provide estimated delivery timeline\n5. Offer shipping refund if delayed >3 days"
  | "Delivery Issues", "neutral", "low" =>
    "📋 STANDARD FOLLOW-UP:\n1. Email " ++ customer_email ++
    " within 24 hours\n2. Share current tracking status\n3. Set delivery expectation window\n4. Provide customer service contact"
  | "Technical Support", "negative", "high" =>
    "🔧 CRITICAL TECHNICAL ISSUE:\n1. Assign senior engineer immediately\n2. Call " ++
    customer_email ++
    " within 2 hours\n3. Provide temporary workaround solution\n4. Escalate to Tech Lead\n5. Schedule screen-sharing session\n6. Commit to resolution timeline"
  | "Technical Support", "negative", "medium" =>
    "💻 TECHNICAL ASSISTANCE:\n1. Email " ++ customer_email ++
    " within 12 hours\n2. Assign to Technical Support Specialist\n3. Request system logs/screenshots\n4. Provide troubleshooting guide\n5. Schedule callback within 24 hours"
  | "Technical Support", "neutral", "low" =>
    "💡 FEATURE FEEDBACK:\n1. Thank " ++ customer_email ++
    " for suggestion\n2. Forward to Product Development Team\n3. Add to feature request backlog\n4. Provide timeline for consideration\n5. Offer to join beta testing program"
  | "Product Quality", "negative", "high" =>
    "📦 QUALITY ISSUE ESCALATION:\n1. Contact " ++ customer_email ++
    " immediately\n2. Arrange free return shipping label\n3. Offer replacement + 20% discount\n4. Escalate to Quality Assurance Manager\n5. Investigate batch/lot number\n6. Document for supplier feedback"
  | "Product Quality", "negative", "medium" =>
    "🔍 QUALITY REVIEW:\n1. Email " ++ customer_email ++
    " within 8 hours\n2. Request product photos/description\n3. Offer exchange or refund options\n4. Assign to Quality Control Team\n5. Provide return instructions"
  | "Refund Requests", "negative", "high" =>
    "💰 URGENT REFUND PROCESSING:\n1. Call " ++ customer_email ++
    " within 1 hour\n2. Verify refund eligibility immediately\n3. Process refund within 24 hours\n4. Escalate to Finance Manager if >$500\n5. Send refund confirmation email\n6. Offer future purchase credit (15% bonus)"
  | "Refund Requests", "negative", "medium" =>
    "💵 REFUND REVIEW:\n1. Email " ++ customer_email ++
    " within 6 hours\n2. Review return policy compliance\n3. Request order details and reason\n4. Process standard refund (3-5 business days)\n5. Provide refund tracking information"
  | "Refund Requests", "positive", "low" =>
    "✅ REFUND ACKNOWLEDGMENT:\n1. Confirm refund received by " ++ customer_email ++
    "\n2. Request feedback on experience\n3. Offer 10% discount on future purchase\n4. Update customer satisfaction metrics"
  | "Service Quality", "negative", "high" =>
    "👤 SERVICE RECOVERY:\n1. Manager to call " ++ customer_email ++
    " within 2 hours\n2. Review service interaction logs\n3. Offer sincere apology + compensation\n4. Retrain involved staff member\n5. Assign dedicated account manager\n6. Follow up within 48 hours"
  | "Service Quality", "negative", "medium" =>
    "📞 SERVICE IMPROVEMENT:\n1. Email " ++ customer_email ++
    " within 8 hours\n2. Assign to Customer Service Supervisor\n3. Review service standards with team\n4. Offer direct contact for future issues\n5. Request detailed feedback"
  | "Service Quality", "neutral", "low" =>
    "📋 FEEDBACK COLLECTION:\n1. Thank " ++ customer_email ++
    " for feedback\n2. Forward to Service Training Department\n3. Use for staff coaching session\n4. Send follow-up satisfaction survey"
  | "Account Issues", "negative", "high" =>
    "🔐 URGENT ACCOUNT ACCESS:\n1. Contact " ++ customer_email ++
    " immediately\n2. Verify identity through security questions\n3. Reset credentials within 1 hour\n4. Escalate to IT Security Team\n5. Enable two-factor authentication\n6. Monitor account for suspicious activity"
  | "Account Issues", "negative", "medium" =>
    "🔑 ACCOUNT ASSISTANCE:\n1. Email " ++ customer_email ++
    " within 4 hours\n2. Send password reset link\n3. Provide account recovery guide\n4. Assign to Account Support Specialist\n5. Schedule verification callback"
  | _, _, _ =>
    let urgency := urgency_map priority
    " ACTION PLAN:\n1. " ++ urgency.method ++ " " ++ customer_email ++
    " within " ++ urgency.timeframe ++ "\n2. " ++ urgency.escalation ++
    "\n3. Assign to " ++ category ++
    " department\n4. " ++ urgency.compensation ++
    "\n5. Document resolution and follow up"

/-! ## `analyze_complaint` (lines 448-482) -/

/-- The exceptions `analyze_complaint` can raise: `ValueError` from
validation, plus the re-raise / wrap handlers of the outer `try`. -/
inductive AnalysisError where
  | valueError (msg : String)
  | timeoutError (msg : String)
  | connectionError (msg : String)
  | genericError (msg : String)
deriving DecidableEq

structure AnalysisResult where
  category : String
  sentiment : String
  priority : String
  suggested_action : String
  response_due_at : Nat
  confidence_category : ℚ
  confidence_sentiment : ℚ
deriving DecidableEq

/-- The orchestrator.  `gwC` and `gwS` are the outcomes of the two gateway
calls, `now` is `datetime.utcnow()`.  The outer `try/except` of the source
re-raises `TimeoutError` and `ConnectionError` and wraps anything else,
but its body is total here — the two wrappers catch every gateway error
themselves — so the embedding has no error path besides validation. -/
def analyze_complaint (gwC : Except GatewayError (Option ClsResponse))
    (gwS : Except GatewayError (Option (List (List SentPred))))
    (text customer_email : String) (now : Nat) :
    Except AnalysisError AnalysisResult :=
  if text = "" ∨ (pyStrip text).length < 10 then
    .error (.valueError "⚠️ Complaint must be at least 10 characters long")
  else if text.length < 15 then
    .error (.valueError "⚠️ Please provide more details (minimum 15 characters)")
  else
    let category_result := classify_complaint gwC text
    let sentiment_result := analyze_sentiment gwS text
    let category := category_result.category
    let sentiment := sentiment_result.sentiment
    let priority := calculate_priority sentiment text category
    let response_due := calculate_response_due_time priority now
    let action := suggest_action category sentiment priority customer_email
    .ok { category := category
          sentiment := sentiment
          priority := priority
          suggested_action := action
          response_due_at := response_due
          confidence_category := category_result.confidence
          confidence_sentiment := sentiment_result.confidence }

/-! ## Predicates used by the theorems -/

/-- The call raised `ValueError` (a validation failure). -/
def raisedValueError {α : Type} : Except AnalysisError α → Bool
  | .error (.valueError _) => true
  | _ => false

/-- The call returned normally. -/
def returnedOk {α : Type} : Except AnalysisError α → Bool
  | .ok _ => true
  | _ => false

/-- No keyword of any category list occurs in the lower-cased text. -/
abbrev noKeywordMatch (text : String) : Prop :=
  ∀ p ∈ category_keywords, countKw (lowerStr text) p.2 = 0

/-- No keyword of any category other than `cat` occurs in the lower-cased
text. -/
abbrev onlyCategoryMatches (cat text : String) : Prop :=
  ∀ p ∈ category_keywords, p.1 ≠ cat → countKw (lowerStr text) p.2 = 0

/-- Decision table of §4.3 of the specification, written from the
specification's words (counts in, first matching rule wins).  Used as the
refinement target for the sentiment detector. -/
def detectSentimentSpec (negative_count positive_count neutral_count : Nat) :
    SentimentResult :=
  if neutral_count > 0 ∧ negative_count = 0 then ⟨"neutral", 0.85⟩
  else if negative_count > positive_count then ⟨"negative", 0.80⟩
  else if positive_count > negative_count then ⟨"positive", 0.80⟩
  else ⟨"neutral", 0.75⟩

/-! ## Theorems -/

/-- C1: for every sentiment, text and category, `calculate_priority`
returns "high" exactly when the sentiment is "negative" and an urgent
keyword occurs in the lower-cased text; otherwise it returns "medium"
exactly when the sentiment is "negative" or an urgent keyword is present
or the category is one of the high-priority categories; otherwise it
returns "low". -/
theorem calculate_priority_spec (sentiment text category : String) :
    (calculate_priority sentiment text category = "high" ↔
      sentiment = "negative" ∧ has_urgent text = true) ∧
    (calculate_priority sentiment text category = "medium" ↔
      ¬(sentiment = "negative" ∧ has_urgent text = true) ∧
        (sentiment = "negative" ∨ has_urgent text = true ∨
          category ∈ high_priority_categories)) ∧
    (calculate_priority sentiment text category = "low" ↔
      ¬(sentiment = "negative" ∧ has_urgent text = true) ∧
        ¬(sentiment = "negative" ∨ has_urgent text = true ∨
          category ∈ high_priority_categories)) := by
  have hhm : ("high" : String) ≠ "medium" := by decide
  have hhl : ("high" : String) ≠ "low" := by decide
  have hml : ("medium" : String) ≠ "low" := by decide
  unfold calculate_priority
  split_ifs with h1 h2
  · exact ⟨⟨fun _ => h1, fun _ => rfl⟩,
      ⟨fun h => absurd h hhm, fun h => absurd h1 h.1⟩,
      ⟨fun h => absurd h hhl, fun h => absurd h1 h.1⟩⟩
  · exact ⟨⟨fun h => absurd h.symm hhm, fun h => absurd h h1⟩,
      ⟨fun _ => ⟨h1, h2⟩, fun _ => rfl⟩,
      ⟨fun h => absurd h hml, fun h => absurd h2 h.2⟩⟩
  · exact ⟨⟨fun h => absurd h.symm hhl, fun h => absurd h h1⟩,
      ⟨fun h => absurd h.symm hml, fun h => absurd h.2 h2⟩,
      ⟨fun _ => ⟨h1, h2⟩, fun _ => rfl⟩⟩

/-- C5: the response deadline is the analysis time plus exactly 2 hours for
"high", 24 hours for "medium" and 48 hours for "low" priority. -/
theorem calculate_response_due_time_table (now : Nat) :
    calculate_response_due_time "high" now = now + 2 * 3600 ∧
    calculate_response_due_time "medium" now = now + 24 * 3600 ∧
    calculate_response_due_time "low" now = now + 48 * 3600 :=
  ⟨rfl, rfl, rfl⟩

/-- C10: for a priority string outside high/medium/low,
`calculate_response_due_time` does not fail but silently applies the
24-hour medium default. -/
theorem calculate_response_due_time_default (priority : String) (now : Nat)
    (h1 : priority ≠ "high") (h2 : priority ≠ "medium") (h3 : priority ≠ "low") :
    calculate_response_due_time priority now = now + 24 * 3600 := by
  unfold calculate_response_due_time
  simp [h1, h2, h3]

/-- Witness for C10 at the unknown priority "urgent". -/
theorem calculate_response_due_time_default_witness :
    ("urgent" : String) ≠ "high" ∧ ("urgent" : String) ≠ "medium" ∧
      ("urgent" : String) ≠ "low" ∧
      calculate_response_due_time "urgent" 0 = 0 + 24 * 3600 :=
  ⟨by decide, by decide, by decide,
    calculate_response_due_time_default "urgent" 0 (by decide) (by decide) (by decide)⟩

/-- C8: the keyword sentiment detector computes the three substring-match
counts of the lower-cased text and decides by the specification's rule
order: neutral count positive and negative count zero gives ("neutral",
0.85); else more negative than positive gives ("negative", 0.80); else more
positive than negative gives ("positive", 0.80); else ("neutral", 0.75). -/
theorem analyze_sentiment_with_keywords_refines_spec (text : String) :
    analyze_sentiment_with_keywords text =
      detectSentimentSpec (countKw (lowerStr text) negative_words)
        (countKw (lowerStr text) positive_words)
        (countKw (lowerStr text) neutral_words) := rfl

/-- C9: whenever the HTTP request raises a connection-level failure, the
gateway raises `ConnectionError` at once: one request is made from that
point, no retry is attempted and no backoff delay is performed, whichever
attempt the failure occurs on; in particular a full invocation whose first
attempt hits a connection failure makes exactly one request. -/
theorem call_huggingface_api_connection_immediate :
    (∀ (α : Type) (http : Nat → HttpOutcome α) (remaining attempt : Nat),
        http attempt = HttpOutcome.connError →
        callLoop http (remaining + 1) attempt =
          ⟨Except.error (GatewayError.connectionError
              "🔌 Connection lost - please check your internet"), 1, []⟩) ∧
    (∀ (α : Type) (http : Nat → HttpOutcome α) (max_retries : Nat),
        0 < max_retries → http 0 = HttpOutcome.connError →
        call_huggingface_api http max_retries =
          ⟨Except.error (GatewayError.connectionError
              "🔌 Connection lost - please check your internet"), 1, []⟩) := by
  constructor
  · intro α http remaining attempt h
    unfold callLoop
    rw [h]
  · intro α http max_retries hmr h
    obtain ⟨k, rfl⟩ : ∃ k, max_retries = k + 1 := ⟨max_retries - 1, by omega⟩
    unfold call_huggingface_api callLoop
    rw [h]

/-- Witness for C9: an oracle whose every attempt hits a connection
failure, with the default three retries. -/
theorem call_huggingface_api_connection_immediate_witness :
    0 < 3 ∧
      (fun _ : Nat => (HttpOutcome.connError : HttpOutcome Unit)) 0 =
        HttpOutcome.connError ∧
      call_huggingface_api (fun _ : Nat => (HttpOutcome.connError : HttpOutcome Unit)) 3 =
        ⟨Except.error (GatewayError.connectionError
            "🔌 Connection lost - please check your internet"), 1, []⟩ :=
  ⟨by decide, rfl,
    call_huggingface_api_connection_immediate.2 Unit (fun _ => HttpOutcome.connError) 3
      (by decide) rfl⟩

/-- C3: for every input text and every gateway behaviour — an error of any
kind, no result, or any response — the classification and sentiment
wrappers are total and return either the accepted remote result or the
deterministic keyword-fallback result. -/
theorem wrappers_always_produce_result :
    (∀ (gw : Except GatewayError (Option ClsResponse)) (text : String),
        classify_complaint gw text = classify_complaint_with_keywords text ∨
        ∃ label score ls ss,
          gw = .ok (some ⟨label :: ls, score :: ss⟩) ∧ score > 0.5 ∧
            classify_complaint gw text = ⟨label, round3 score⟩) ∧
    (∀ (gw : Except GatewayError (Option (List (List SentPred)))) (text : String),
        analyze_sentiment gw text = analyze_sentiment_with_keywords text ∨
        ∃ p ps rest,
          gw = .ok (some ((p :: ps) :: rest)) ∧ (maxByScore p ps).score > 0.6 ∧
            analyze_sentiment gw text =
              ⟨sentiment_map_get (maxByScore p ps).label,
                round3 (maxByScore p ps).score⟩) := by
  constructor
  · intro gw text
    cases gw with
    | error e => exact Or.inl rfl
    | ok val =>
      cases val with
      | none => exact Or.inl rfl
      | some result =>
        obtain ⟨labels, scores⟩ := result
        cases labels with
        | nil =>
          cases scores with
          | nil => exact Or.inl rfl
          | cons s ss => exact Or.inl rfl
        | cons label ls =>
          cases scores with
          | nil => exact Or.inl rfl
          | cons score ss =>
            by_cases h : score > 0.5
            · exact Or.inr ⟨label, score, ls, ss, rfl, h, by
                simp [classify_complaint, h]⟩
            · exact Or.inl (by simp [classify_complaint, h])
  · intro gw text
    cases gw with
    | error e => exact Or.inl rfl
    | ok val =>
      cases val with
      | none => exact Or.inl rfl
      | some result =>
        cases result with
        | nil => exact Or.inl rfl
        | cons predictions rest =>
          cases predictions with
          | nil => exact Or.inl rfl
          | cons p ps =>
            by_cases h : (maxByScore p ps).score > 0.6
            · exact Or.inr ⟨p, ps, rest, rfl, h, by
                simp [analyze_sentiment, h]⟩
            · exact Or.inl (by simp [analyze_sentiment, h])

/-- C2 counterexample: with a valid text, a gateway timeout during the
classification call (and, symmetrically, a connection failure during the
sentiment call) is not propagated: `analyze_complaint` returns normally. -/
theorem analyze_complaint_propagation_cex :
    returnedOk (analyze_complaint
        (Except.error (GatewayError.timeoutError
          "⏰ AI service request timeout - please try again"))
        (Except.ok none) "this is a test complaint" "customer@example.com" 0) = true ∧
    returnedOk (analyze_complaint (Except.ok none)
        (Except.error (GatewayError.connectionError
          "🔌 Connection lost - please check your internet"))
        "this is a test complaint" "customer@example.com" 0) = true :=
  ⟨rfl, rfl⟩

/-- C2 amended: gateway errors of every kind raised during the
classification or sentiment call are absorbed by the wrappers into the
keyword fallback; on valid input `analyze_complaint` returns a normal
result assembled entirely from the two keyword fallbacks, and no
timeout or connectivity error reaches its caller. -/
theorem analyze_complaint_absorbs_gateway_errors (errC errS : GatewayError)
    (text customer_email : String) (now : Nat)
    (hvalid : ¬((pyStrip text).length < 10 ∨ text.length < 15)) :
    analyze_complaint (.error errC) (.error errS) text customer_email now =
      .ok { category := (classify_complaint_with_keywords text).category
            sentiment := (analyze_sentiment_with_keywords text).sentiment
            priority := calculate_priority (analyze_sentiment_with_keywords text).sentiment
              text (classify_complaint_with_keywords text).category
            suggested_action := suggest_action (classify_complaint_with_keywords text).category
              (analyze_sentiment_with_keywords text).sentiment
              (calculate_priority (analyze_sentiment_with_keywords text).sentiment
                text (classify_complaint_with_keywords text).category) customer_email
            response_due_at := calculate_response_due_time
              (calculate_priority (analyze_sentiment_with_keywords text).sentiment
                text (classify_complaint_with_keywords text).category) now
            confidence_category := (classify_complaint_with_keywords text).confidence
            confidence_sentiment := (analyze_sentiment_with_keywords text).confidence } := by
  have h1 : ¬(text = "" ∨ (pyStrip text).length < 10) := by
    rintro (rfl | h)
    · exact hvalid (Or.inl (by decide))
    · exact hvalid (Or.inl h)
  have h2 : ¬(text.length < 15) := fun h => hvalid (Or.inr h)
  unfold analyze_complaint
  rw [if_neg h1, if_neg h2]
  rfl

/-- Witness for the amended C2 at a concrete valid complaint and concrete
gateway errors. -/
theorem analyze_complaint_absorbs_gateway_errors_witness :
    ¬((pyStrip "this is a test complaint").length < 10 ∨
        ("this is a test complaint" : String).length < 15) ∧
      analyze_complaint
        (.error (GatewayError.timeoutError
          "⏰ AI service request timeout - please try again"))
        (.error (GatewayError.connectionError
          "🔌 Connection lost - please check your internet"))
        "this is a test complaint" "customer@example.com" 0 =
      .ok { category := (classify_complaint_with_keywords "this is a test complaint").category
            sentiment := (analyze_sentiment_with_keywords "this is a test complaint").sentiment
            priority := calculate_priority
              (analyze_sentiment_with_keywords "this is a test complaint").sentiment
              "this is a test complaint"
              (classify_complaint_with_keywords "this is a test complaint").category
            suggested_action := suggest_action
              (classify_complaint_with_keywords "this is a test complaint").category
              (analyze_sentiment_with_keywords "this is a test complaint").sentiment
              (calculate_priority
                (analyze_sentiment_with_keywords "this is a test complaint").sentiment
                "this is a test complaint"
                (classify_complaint_with_keywords "this is a test complaint").category)
              "customer@example.com"
            response_due_at := calculate_response_due_time
              (calculate_priority
                (analyze_sentiment_with_keywords "this is a test complaint").sentiment
                "this is a test complaint"
                (classify_complaint_with_keywords "this is a test complaint").category) 0
            confidence_category :=
              (classify_complaint_with_keywords "this is a test complaint").confidence
            confidence_sentiment :=
              (analyze_sentiment_with_keywords "this is a test complaint").confidence } :=
  ⟨by decide,
    analyze_complaint_absorbs_gateway_errors
      (GatewayError.timeoutError "⏰ AI service request timeout - please try again")
      (GatewayError.connectionError "🔌 Connection lost - please check your internet")
      "this is a test complaint" "customer@example.com" 0 (by decide)⟩

/-- C4 counterexample: no single configured minimum on the trimmed length
describes the validation check — 12 characters of text raise even though
the trimmed length is 12, while 12 trimmed characters padded to raw length
15 do not raise. -/
theorem analyze_complaint_validation_cex :
    ¬ ∃ m : Nat, ∀ (gwC : Except GatewayError (Option ClsResponse))
        (gwS : Except GatewayError (Option (List (List SentPred))))
        (text customer_email : String) (now : Nat),
        raisedValueError (analyze_complaint gwC gwS text customer_email now) = true ↔
          (pyStrip text = "" ∨ (pyStrip text).length < m) := by
  rintro ⟨m, h⟩
  have ha := (h (.ok none) (.ok none) "aaaaaaaaaaaa" "customer@example.com" 0).mp
    (by decide)
  have hm : 12 < m := by
    rcases ha with he | hl
    · exact absurd he (by decide)
    · have h12 : (pyStrip "aaaaaaaaaaaa").length = 12 := by decide
      omega
  have hc := (h (.ok none) (.ok none) "aaaaaaaaaaaa   " "customer@example.com" 0).mpr
    (Or.inr (by
      have h12 : (pyStrip "aaaaaaaaaaaa   ").length = 12 := by decide
      omega))
  have hfalse : raisedValueError (analyze_complaint (.ok none) (.ok none)
      "aaaaaaaaaaaa   " "customer@example.com" 0) = false := by decide
  rw [hfalse] at hc
  exact Bool.false_ne_true hc

/-- C4 amended: `analyze_complaint` raises `ValueError` exactly when the
trimmed text is shorter than 10 characters or the raw text is shorter than
15 characters; the check runs before any classification, sentiment or
triage computation — on invalid input the outcome is independent of the
gateway behaviours. -/
theorem analyze_complaint_validation (gwC : Except GatewayError (Option ClsResponse))
    (gwS : Except GatewayError (Option (List (List SentPred))))
    (text customer_email : String) (now : Nat) :
    (raisedValueError (analyze_complaint gwC gwS text customer_email now) = true ↔
      (pyStrip text).length < 10 ∨ text.length < 15) ∧
    ((pyStrip text).length < 10 ∨ text.length < 15 →
      analyze_complaint gwC gwS text customer_email now =
        analyze_complaint (.ok none) (.ok none) text customer_email now) := by
  by_cases hA : text = "" ∨ (pyStrip text).length < 10
  · have hstrip : (pyStrip text).length < 10 := by
      rcases hA with rfl | hl
      · decide
      · exact hl
    unfold analyze_complaint
    simp only [if_pos hA]
    exact ⟨⟨fun _ => Or.inl hstrip, fun _ => rfl⟩, fun _ => trivial⟩
  · have hstrip : ¬((pyStrip text).length < 10) := fun hl => hA (Or.inr hl)
    by_cases hB : text.length < 15
    · unfold analyze_complaint
      simp only [if_neg hA, if_pos hB]
      exact ⟨⟨fun _ => Or.inr hB, fun _ => rfl⟩, fun _ => trivial⟩
    · unfold analyze_complaint
      simp only [if_neg hA, if_neg hB]
      refine ⟨⟨fun hx => ?_, fun hx => hx.elim (fun x => absurd x hstrip)
        (fun x => absurd x hB)⟩, fun hx => hx.elim (fun x => absurd x hstrip)
          (fun x => absurd x hB)⟩
      simp [raisedValueError] at hx

/-- Witness for the amended C4 at the concrete invalid text "short". -/
theorem analyze_complaint_validation_witness :
    ((pyStrip "short").length < 10 ∨ ("short" : String).length < 15) ∧
      raisedValueError (analyze_complaint
        (.error (GatewayError.timeoutError "t")) (.ok none)
        "short" "customer@example.com" 0) = true ∧
      analyze_complaint (.error (GatewayError.timeoutError "t")) (.ok none)
          "short" "customer@example.com" 0 =
        analyze_complaint (.ok none) (.ok none) "short" "customer@example.com" 0 :=
  ⟨by decide,
    (analyze_complaint_validation (.error (GatewayError.timeoutError "t")) (.ok none)
      "short" "customer@example.com" 0).1.mpr (by decide),
    (analyze_complaint_validation (.error (GatewayError.timeoutError "t")) (.ok none)
      "short" "customer@example.com" 0).2 (by decide)⟩

/-- C7: when no keyword of any of the 7 categories occurs in the
lower-cased text, the keyword classifier returns the catch-all category
"Service Quality" with confidence 0.70. -/
theorem classify_no_keyword_default (text : String) (h : noKeywordMatch text) :
    classify_complaint_with_keywords text = ⟨"Service Quality", 0.70⟩ := by
  have h1 : countKw (lowerStr text) billing_keywords = 0 :=
    h ("Billing Issues", billing_keywords) (by simp [category_keywords])
  have h2 : countKw (lowerStr text) delivery_keywords = 0 :=
    h ("Delivery Issues", delivery_keywords) (by simp [category_keywords])
  have h3 : countKw (lowerStr text) product_keywords = 0 :=
    h ("Product Quality", product_keywords) (by simp [category_keywords])
  have h4 : countKw (lowerStr text) refund_keywords = 0 :=
    h ("Refund Requests", refund_keywords) (by simp [category_keywords])
  have h5 : countKw (lowerStr text) account_keywords = 0 :=
    h ("Account Issues", account_keywords) (by simp [category_keywords])
  have h6 : countKw (lowerStr text) service_keywords = 0 :=
    h ("Service Quality", service_keywords) (by simp [category_keywords])
  have h7 : countKw (lowerStr text) technical_keywords = 0 :=
    h ("Technical Support", technical_keywords) (by simp [category_keywords])
  unfold classify_complaint_with_keywords
  simp only [category_keywords, List.map_cons, List.map_nil]
  rw [h1, h2, h3, h4, h5, h6, h7]
  simp

/-- Witness for C7 at the keyword-free text "zzzz". -/
theorem classify_no_keyword_default_witness :
    noKeywordMatch "zzzz" ∧
      classify_complaint_with_keywords "zzzz" = ⟨"Service Quality", 0.70⟩ :=
  ⟨by decide, classify_no_keyword_default "zzzz" (by decide)⟩

/-- C6: when `n ≥ 1` keywords of exactly one category's list occur in the
lower-cased text and no keyword of any other category occurs, the keyword
classifier returns that category with confidence
`min(0.85 + 0.02 * n, 0.99)` rounded to 3 decimals. -/
theorem classify_single_category (text cat : String) (kws : List String) (n : Nat)
    (hmem : (cat, kws) ∈ category_keywords) (hn : 1 ≤ n)
    (hcount : countKw (lowerStr text) kws = n)
    (hothers : onlyCategoryMatches cat text) :
    classify_complaint_with_keywords text =
      ⟨cat, round3 (min (0.85 + 0.02 * (n : ℚ)) 0.99)⟩ := by
  have hdec : decide (0 < n) = true := decide_eq_true (by omega)
  simp only [category_keywords, List.mem_cons, List.not_mem_nil, or_false,
    Prod.mk.injEq] at hmem
  unfold classify_complaint_with_keywords
  simp only [category_keywords, List.map_cons, List.map_nil]
  rcases hmem with ⟨rfl, rfl⟩ | ⟨rfl, rfl⟩ | ⟨rfl, rfl⟩ | ⟨rfl, rfl⟩ |
    ⟨rfl, rfl⟩ | ⟨rfl, rfl⟩ | ⟨rfl, rfl⟩
  · have hD : countKw (lowerStr text) delivery_keywords = 0 :=
      hothers ("Delivery Issues", delivery_keywords) (by simp [category_keywords]) (by decide)
    have hP : countKw (lowerStr text) product_keywords = 0 :=
      hothers ("Product Quality", product_keywords) (by simp [category_keywords]) (by decide)
    have hR : countKw (lowerStr text) refund_keywords = 0 :=
      hothers ("Refund Requests", refund_keywords) (by simp [category_keywords]) (by decide)
    have hA : countKw (lowerStr text) account_keywords = 0 :=
      hothers ("Account Issues", account_keywords) (by simp [category_keywords]) (by decide)
    have hS : countKw (lowerStr text) service_keywords = 0 :=
      hothers ("Service Quality", service_keywords) (by simp [category_keywords]) (by decide)
    have hT : countKw (lowerStr text) technical_keywords = 0 :=
      hothers ("Technical Support", technical_keywords) (by simp [category_keywords]) (by decide)
    rw [hcount, hD, hP, hR, hA, hS, hT]
    simp [maxBySnd, hdec, mul_comm]
  · have hB : countKw (lowerStr text) billing_keywords = 0 :=
      hothers ("Billing Issues", billing_keywords) (by simp [category_keywords]) (by decide)
    have hP : countKw (lowerStr text) product_keywords = 0 :=
      hothers ("Product Quality", product_keywords) (by simp [category_keywords]) (by decide)
    have hR : countKw (lowerStr text) refund_keywords = 0 :=
      hothers ("Refund Requests", refund_keywords) (by simp [category_keywords]) (by decide)
    have hA : countKw (lowerStr text) account_keywords = 0 :=
      hothers ("Account Issues", account_keywords) (by simp [category_keywords]) (by decide)
    have hS : countKw (lowerStr text) service_keywords = 0 :=
      hothers ("Service Quality", service_keywords) (by simp [category_keywords]) (by decide)
    have hT : countKw (lowerStr text) technical_keywords = 0 :=
      hothers ("Technical Support", technical_keywords) (by simp [category_keywords]) (by decide)
    rw [hcount, hB, hP, hR, hA, hS, hT]
    simp [maxBySnd, hdec, mul_comm]
  · have hB : countKw (lowerStr text) billing_keywords = 0 :=
      hothers ("Billing Issues", billing_keywords) (by simp [category_keywords]) (by decide)
    have hD : countKw (lowerStr text) delivery_keywords = 0 :=
      hothers ("Delivery Issues", delivery_keywords) (by simp [category_keywords]) (by decide)
    have hR : countKw (lowerStr text) refund_keywords = 0 :=
      hothers ("Refund Requests", refund_keywords) (by simp [category_keywords]) (by decide)
    have hA : countKw (lowerStr text) account_keywords = 0 :=
      hothers ("Account Issues", account_keywords) (by simp [category_keywords]) (by decide)
    have hS : countKw (lowerStr text) service_keywords = 0 :=
      hothers ("Service Quality", service_keywords) (by simp [category_keywords]) (by decide)
    have hT : countKw (lowerStr text) technical_keywords = 0 :=
      hothers ("Technical Support", technical_keywords) (by simp [category_keywords]) (by decide)
    rw [hcount, hB, hD, hR, hA, hS, hT]
    simp [maxBySnd, hdec, mul_comm]
  · have hB : countKw (lowerStr text) billing_keywords = 0 :=
      hothers ("Billing Issues", billing_keywords) (by simp [category_keywords]) (by decide)
    have hD : countKw (lowerStr text) delivery_keywords = 0 :=
      hothers ("Delivery Issues", delivery_keywords) (by simp [category_keywords]) (by decide)
    have hP : countKw (lowerStr text) product_keywords = 0 :=
      hothers ("Product Quality", product_keywords) (by simp [category_keywords]) (by decide)
    have hA : countKw (lowerStr text) account_keywords = 0 :=
      hothers ("Account Issues", account_keywords) (by simp [category_keywords]) (by decide)
    have hS : countKw (lowerStr text) service_keywords = 0 :=
      hothers ("Service Quality", service_keywords) (by simp [category_keywords]) (by decide)
    have hT : countKw (lowerStr text) technical_keywords = 0 :=
      hothers ("Technical Support", technical_keywords) (by simp [category_keywords]) (by decide)
    rw [hcount, hB, hD, hP, hA, hS, hT]
    simp [maxBySnd, hdec, mul_comm]
  · have hB : countKw (lowerStr text) billing_keywords = 0 :=
      hothers ("Billing Issues", billing_keywords) (by simp [category_keywords]) (by decide)
    have hD : countKw (lowerStr text) delivery_keywords = 0 :=
      hothers ("Delivery Issues", delivery_keywords) (by simp [category_keywords]) (by decide)
    have hP : countKw (lowerStr text) product_keywords = 0 :=
      hothers ("Product Quality", product_keywords) (by simp [category_keywords]) (by decide)
    have hR : countKw (lowerStr text) refund_keywords = 0 :=
      hothers ("Refund Requests", refund_keywords) (by simp [category_keywords]) (by decide)
    have hS : countKw (lowerStr text) service_keywords = 0 :=
      hothers ("Service Quality", service_keywords) (by simp [category_keywords]) (by decide)
    have hT : countKw (lowerStr text) technical_keywords = 0 :=
      hothers ("Technical Support", technical_keywords) (by simp [category_keywords]) (by decide)
    rw [hcount, hB, hD, hP, hR, hS, hT]
    simp [maxBySnd, hdec, mul_comm]
  · have hB : countKw (lowerStr text) billing_keywords = 0 :=
      hothers ("Billing Issues", billing_keywords) (by simp [category_keywords]) (by decide)
    have hD : countKw (lowerStr text) delivery_keywords = 0 :=
      hothers ("Delivery Issues", delivery_keywords) (by simp [category_keywords]) (by decide)
    have hP : countKw (lowerStr text) product_keywords = 0 :=
      hothers ("Product Quality", product_keywords) (by simp [category_keywords]) (by decide)
    have hR : countKw (lowerStr text) refund_keywords = 0 :=
      hothers ("Refund Requests", refund_keywords) (by simp [category_keywords]) (by decide)
    have hA : countKw (lowerStr text) account_keywords = 0 :=
      hothers ("Account Issues", account_keywords) (by simp [category_keywords]) (by decide)
    have hT : countKw (lowerStr text) technical_keywords = 0 :=
      hothers ("Technical Support", technical_keywords) (by simp [category_keywords]) (by decide)
    rw [hcount, hB, hD, hP, hR, hA, hT]
    simp [maxBySnd, hdec, mul_comm]
  · have hB : countKw (lowerStr text) billing_keywords = 0 :=
      hothers ("Billing Issues", billing_keywords) (by simp [category_keywords]) (by decide)
    have hD : countKw (lowerStr text) delivery_keywords = 0 :=
      hothers ("Delivery Issues", delivery_keywords) (by simp [category_keywords]) (by decide)
    have hP : countKw (lowerStr text) product_keywords = 0 :=
      hothers ("Product Quality", product_keywords) (by simp [category_keywords]) (by decide)
    have hR : countKw (lowerStr text) refund_keywords = 0 :=
      hothers ("Refund Requests", refund_keywords) (by simp [category_keywords]) (by decide)
    have hA : countKw (lowerStr text) account_keywords = 0 :=
      hothers ("Account Issues", account_keywords) (by simp [category_keywords]) (by decide)
    have hS : countKw (lowerStr text) service_keywords = 0 :=
      hothers ("Service Quality", service_keywords) (by simp [category_keywords]) (by decide)
    rw [hcount, hB, hD, hP, hR, hA, hS]
    simp [maxBySnd, hdec, mul_comm]

/-- Witness for C6 at the text "bug", which matches exactly one keyword of
exactly one category (Technical Support). -/
theorem classify_single_category_witness :
    ("Technical Support", technical_keywords) ∈ category_keywords ∧ 1 ≤ 1 ∧
      countKw (lowerStr "bug") technical_keywords = 1 ∧
      onlyCategoryMatches "Technical Support" "bug" ∧
      classify_complaint_with_keywords "bug" =
        ⟨"Technical Support", round3 (min (0.85 + 0.02 * ((1 : Nat) : ℚ)) 0.99)⟩ :=
  ⟨by simp [category_keywords], le_refl 1, by decide, by decide,
    classify_single_category "bug" "Technical Support" technical_keywords 1
      (by simp [category_keywords]) (le_refl 1) (by decide) (by decide)⟩

end ComplaintAnalyzer
